import Mathlib

/-!
Verification of the interval state machine of `src/pomodoro_timer.py`
(`class PomodoroTimer`).

The embedding translates the state-bearing part of the class and the
methods that mutate it.  GUI-only effects (label texts, fonts, sounds,
desktop notifications) carry no state the specification's claims touch
and are omitted; the enabled/disabled ("normal"/"disabled") states of the
Start, Pause and Set-Custom-Time buttons ARE modelled, because they gate
which callbacks the user can trigger: a disabled `CTkButton` does not run
its `command`, and the source flips these states in `setup_ui`,
`start_timer` and `reset_timer`.

Strings are modelled as `List Char`.  Python's `str.split(":")` and
`int(...)` are modelled by `splitOnColon` and `pyInt` below; `pyInt`
covers optional surrounding ASCII whitespace, an optional sign and a
non-empty run of ASCII decimal digits (CPython additionally accepts
underscore separators and non-ASCII digits; those inputs play no role in
any claim).

`time_left` is a Python `int`, embedded as `Int` so that the
non-negativity claims are not true by type alone.
-/

namespace Pomodoro

/-- Current interval kind: the source stores the strings `"Pomodoro"`,
`"Short Break"`, `"Long Break"` in `self.current_mode`. -/
inductive Mode where
  | Pomodoro
  | ShortBreak
  | LongBreak
  deriving DecidableEq, Repr

/-- `self.pomodoro_time = 25 * 60` (line 46); never reassigned. -/
def pomodoro_time : Int := 25 * 60

/-- `self.short_break_time = 5 * 60` (line 47); never reassigned. -/
def short_break_time : Int := 5 * 60

/-- `self.long_break_time = 30 * 60` (line 48); never reassigned. -/
def long_break_time : Int := 30 * 60

/-- The mutable state of a `PomodoroTimer` instance: the countdown fields
set in `__init__` (lines 49-53) plus the enabled state of the three
buttons that gate user operations (`True` = tkinter state `"normal"`,
`False` = `"disabled"`).  Initially the Start and Set-Custom-Time buttons
are normal and the Pause button is disabled (lines 119-131, 143-155). -/
structure TimerState where
  current_mode : Mode
  time_left : Int
  timer_running : Bool
  timer_paused : Bool
  pomodoro_count : Nat
  start_button_normal : Bool
  pause_button_normal : Bool
  custom_button_normal : Bool
  deriving DecidableEq, Repr

/-- The state right after `__init__` and `setup_ui`. -/
def initial_state : TimerState :=
  { current_mode := Mode.Pomodoro
    time_left := pomodoro_time
    timer_running := false
    timer_paused := false
    pomodoro_count := 0
    start_button_normal := true
    pause_button_normal := false
    custom_button_normal := true }

/-- `start_timer` (lines 176-183): if not running, set running, disable
Start and Set-Custom-Time, enable Pause (and spawn the `run_timer`
thread, whose per-iteration state effect is `tick` below). -/
def start_timer (s : TimerState) : TimerState :=
  if s.timer_running = false then
    { s with timer_running := true
             start_button_normal := false
             pause_button_normal := true
             custom_button_normal := false }
  else s

/-- `pause_timer` (lines 247-254): unconditionally toggles
`self.timer_paused` (the button-text change is presentation only). -/
def pause_timer (s : TimerState) : TimerState :=
  if s.timer_paused = true then { s with timer_paused := false }
  else { s with timer_paused := true }

/-- `reset_timer` (lines 256-267): clears every countdown field back to
its `__init__` value and restores the initial button states. -/
def reset_timer (s : TimerState) : TimerState :=
  { s with timer_running := false
           timer_paused := false
           time_left := pomodoro_time
           current_mode := Mode.Pomodoro
           pomodoro_count := 0
           start_button_normal := true
           pause_button_normal := false
           custom_button_normal := true }

/-- `timer_finished` (lines 206-223): on Work completion increment the
count and move to Long Break (every 4th) or Short Break; on break
completion move back to Work; load the new mode's duration.  Leaves
`timer_running`, `timer_paused` and the buttons untouched. -/
def timer_finished (s : TimerState) : TimerState :=
  if s.current_mode = Mode.Pomodoro then
    if (s.pomodoro_count + 1) % 4 = 0 then
      { s with pomodoro_count := s.pomodoro_count + 1
               current_mode := Mode.LongBreak
               time_left := long_break_time }
    else
      { s with pomodoro_count := s.pomodoro_count + 1
               current_mode := Mode.ShortBreak
               time_left := short_break_time }
  else
    { s with current_mode := Mode.Pomodoro
             time_left := pomodoro_time }

/-- One pass through the loop structure of `run_timer` (lines 185-197),
under the serialized-step reading: when running with time left and not
paused, decrement once; if that decrement (or the state already) reaches
zero while still running, the inner `while` exits and `timer_finished`
runs in the same step.  Paused iterations only sleep; a stopped timer
does nothing. -/
def tick (s : TimerState) : TimerState :=
  if s.timer_running = true then
    if 0 < s.time_left then
      if s.timer_paused = true then s
      else
        if s.time_left - 1 = 0 then timer_finished { s with time_left := s.time_left - 1 }
        else { s with time_left := s.time_left - 1 }
    else timer_finished s
  else s

/-- ASCII whitespace characters stripped by Python's `int(str)` before
parsing (space, tab, newline, vertical tab, form feed, carriage return). -/
def isPySpace (c : Char) : Bool :=
  c.toNat = 32 || c.toNat = 9 || c.toNat = 10 || c.toNat = 11 || c.toNat = 12 || c.toNat = 13

/-- ASCII decimal digit test. -/
def isPyDigit (c : Char) : Bool :=
  48 ≤ c.toNat && c.toNat ≤ 57

/-- Numeric value of an ASCII digit character. -/
def digitVal (c : Char) : Nat := c.toNat - 48

/-- Value of a little-endian (least-significant-first) digit list;
`none` on the first non-digit character. -/
def revVal : List Char → Option Nat
  | [] => some 0
  | c :: cs =>
    if isPyDigit c then (revVal cs).map (fun v => digitVal c + 10 * v) else none

/-- Value of a big-endian digit list; `none` when empty or when any
character is not an ASCII digit. -/
def digitsToNat (l : List Char) : Option Nat :=
  if l.isEmpty then none else revVal l.reverse

/-- Strip leading and trailing Python whitespace. -/
def pyStrip (l : List Char) : List Char :=
  ((l.dropWhile isPySpace).reverse.dropWhile isPySpace).reverse

/-- Python's `int(str)`: optional surrounding whitespace, optional sign,
then a non-empty digit run; `none` models the `ValueError` raise. -/
def pyInt (l : List Char) : Option Int :=
  match pyStrip l with
  | [] => none
  | c :: rest =>
    if c = '+' then (digitsToNat rest).map (fun n => (n : Int))
    else if c = '-' then (digitsToNat rest).map (fun n => -(n : Int))
    else (digitsToNat (c :: rest)).map (fun n => (n : Int))

/-- Python's `str.split(":")`: e.g. `""` gives `[""]`, `"a:b"` gives
`["a", "b"]`, `"::"` gives `["", "", ""]`. -/
def splitOnColon : List Char → List (List Char)
  | [] => [[]]
  | c :: rest =>
    if c = ':' then [] :: splitOnColon rest
    else
      match splitOnColon rest with
      | [] => [[c]]
      | g :: gs => (c :: g) :: gs

/-- The three `ValueError` causes inside `set_custom_time` (lines
269-285): `raise ValueError("Invalid time format")` on a wrong segment
count, the `ValueError` raised by `int(...)` on a non-integer segment,
and `raise ValueError("Time must be greater than zero")` on a
non-positive total.  All are caught by the same handler, which shows an
"Invalid Input" message box and leaves the state unchanged. -/
inductive CustomTimeError where
  | invalidFormat
  | nonIntegerSegment
  | nonPositiveTotal
  deriving DecidableEq, Repr

/-- `set_custom_time` (lines 269-285) on entry text `input`: split on
`":"`, require exactly three segments, parse each with `int`, compute
`hours*3600 + minutes*60 + seconds`, and if positive overwrite
`self.time_left` with it; every failure path leaves the state unchanged
and surfaces the error. -/
def set_custom_time (input : List Char) (s : TimerState) :
    Except CustomTimeError TimerState :=
  match splitOnColon input with
  | [a, b, c] =>
    match pyInt a, pyInt b, pyInt c with
    | some hours, some minutes, some seconds =>
      if 0 < hours * 3600 + minutes * 60 + seconds then
        Except.ok { s with time_left := hours * 3600 + minutes * 60 + seconds }
      else Except.error CustomTimeError.nonPositiveTotal
    | _, _, _ => Except.error CustomTimeError.nonIntegerSegment
  | _ => Except.error CustomTimeError.invalidFormat

/-- The state after a `set_custom_time` call: the updated state on
success, the unchanged state when the `ValueError` handler fires. -/
def set_custom_apply (input : List Char) (s : TimerState) : TimerState :=
  match set_custom_time input s with
  | Except.ok s' => s'
  | Except.error _ => s

/-- A click on the Start button runs `start_timer` only while the button
is in state `"normal"`. -/
def click_start (s : TimerState) : TimerState :=
  if s.start_button_normal = true then start_timer s else s

/-- A click on the Pause button runs `pause_timer` only while the button
is in state `"normal"` (it is disabled in `setup_ui` and `reset_timer`,
enabled in `start_timer`). -/
def click_pause (s : TimerState) : TimerState :=
  if s.pause_button_normal = true then pause_timer s else s

/-- A click on the Set-Custom-Time button runs `set_custom_time` only
while the button is in state `"normal"`. -/
def click_set_custom (input : List Char) (s : TimerState) : TimerState :=
  if s.custom_button_normal = true then set_custom_apply input s else s

/-- The operations that can change the timer state after startup: the
three button callbacks, the Reset callback, one countdown iteration of
`run_timer`, and the completion check `run_timer` performs when the
inner loop exits with time left at zero (`finish` is the
`if self.timer_running: self.timer_finished()` of lines 196-197; `tick`
already performs it in the same step when a decrement reaches zero). -/
inductive Event where
  | start
  | pauseClick
  | tick
  | finish
  | setCustom (input : List Char)
  | reset

/-- Apply one event to the state. -/
def step (s : TimerState) (e : Event) : TimerState :=
  match e with
  | Event.start => click_start s
  | Event.pauseClick => click_pause s
  | Event.tick => tick s
  | Event.finish =>
    if s.timer_running = true ∧ s.time_left ≤ 0 then timer_finished s else s
  | Event.setCustom input => click_set_custom input s
  | Event.reset => reset_timer s

/-- States reachable from the initial state by a sequence of events. -/
def reachable (s : TimerState) : Prop :=
  ∃ evs : List Event, List.foldl step initial_state evs = s

/-- Invariant maintained by every event: positive time left, paused only
while running, and the Pause button enabled only while running. -/
def Inv (s : TimerState) : Prop :=
  1 ≤ s.time_left ∧
  (s.timer_paused = true → s.timer_running = true) ∧
  (s.pause_button_normal = true → s.timer_running = true)

/-- Display decomposition used by `update_time_display` (lines 199-204):
`divmod(time_left, 3600)` then `divmod(remainder, 60)`, giving
`(hours, minutes, seconds)`. -/
def display_parts (r : Nat) : Nat × Nat × Nat :=
  (r / 3600, r % 3600 / 60, r % 3600 % 60)

/-- Decimal digit character. -/
def digitChar (n : Nat) : Char := Char.ofNat (48 + n)

/-- Big-endian decimal digit list of `n`, with explicit fuel (any fuel
of at least `n` suffices, and `natToDigits` passes `n + 1`). -/
def natToDigitsAux : Nat → Nat → List Char
  | 0, _ => []
  | fuel + 1, n =>
    if n < 10 then [digitChar n]
    else natToDigitsAux fuel (n / 10) ++ [digitChar (n % 10)]

/-- Big-endian decimal digit list of `n`. -/
def natToDigits (n : Nat) : List Char := natToDigitsAux (n + 1) n

/-- Python's `f"{n:02d}"`: the decimal digits of `n`, zero-padded on the
left to width two. -/
def fmt2 (n : Nat) : List Char :=
  if n < 10 then '0' :: natToDigits n else natToDigits n

/-- The `HH:MM:SS` text rendered by `update_time_display` for a
remaining time of `r` seconds:
`f"{hours:02d}:{mins:02d}:{secs:02d}"` over `display_parts r`. -/
def format_time (r : Nat) : List Char :=
  fmt2 (display_parts r).1 ++ ':' :: (fmt2 (display_parts r).2.1 ++ ':' :: fmt2 (display_parts r).2.2)

/-- Position of the `run_timer` worker thread inside its inner loop
(lines 188-192).  `atGuard`: about to evaluate
`self.time_left > 0 and self.timer_running` and `not self.timer_paused`.
`atDecrement`: those guards passed and `time.sleep(1)` has been entered;
the next action is the unguarded `self.time_left -= 1` of line 192. -/
inductive WorkerPC where
  | atGuard
  | atDecrement
  deriving DecidableEq, Repr

/-- Two-thread system state: the shared `PomodoroTimer` fields plus the
worker thread's position.  The Tk main thread (button callbacks) and the
`run_timer` daemon thread interleave on this shared state. -/
structure SysState where
  ts : TimerState
  pc : WorkerPC
  deriving DecidableEq, Repr

/-- One atomic action of the worker thread.  From `atGuard` it evaluates
the loop and pause guards (lines 188-189); when they pass it starts the
one-second `time.sleep(1)` (line 191), leaving it committed to the
decrement.  From `atDecrement` it wakes and runs `self.time_left -= 1`
(line 192) with no re-check of `timer_running`. -/
def worker_step (σ : SysState) : SysState :=
  match σ.pc with
  | WorkerPC.atGuard =>
    if σ.ts.timer_running = true ∧ 0 < σ.ts.time_left ∧ σ.ts.timer_paused = false then
      { σ with pc := WorkerPC.atDecrement }
    else σ
  | WorkerPC.atDecrement =>
    { ts := { σ.ts with time_left := σ.ts.time_left - 1 }, pc := WorkerPC.atGuard }

/-- The main thread runs the Reset button callback: `reset_timer` on the
shared state, which does nothing to the worker thread beyond clearing
`timer_running`. -/
def main_reset (σ : SysState) : SysState :=
  { σ with ts := reset_timer σ.ts }

/-- A mid-countdown running state with the worker at its loop guard:
reached by starting the timer and letting it tick down to 5 seconds
left. -/
def race_start : SysState :=
  { ts := { current_mode := Mode.Pomodoro
            time_left := 5
            timer_running := true
            timer_paused := false
            pomodoro_count := 0
            start_button_normal := false
            pause_button_normal := true
            custom_button_normal := false }
    pc := WorkerPC.atGuard }

/-! ### Helper lemmas -/

theorem timer_finished_pos (s : TimerState) : 1 ≤ (timer_finished s).time_left := by
  unfold timer_finished
  split
  · split
    · show (1:Int) ≤ long_break_time
      decide
    · show (1:Int) ≤ short_break_time
      decide
  · show (1:Int) ≤ pomodoro_time
    decide

theorem timer_finished_preserves (s : TimerState) :
    (timer_finished s).timer_running = s.timer_running ∧
    (timer_finished s).timer_paused = s.timer_paused ∧
    (timer_finished s).pause_button_normal = s.pause_button_normal ∧
    (timer_finished s).start_button_normal = s.start_button_normal ∧
    (timer_finished s).custom_button_normal = s.custom_button_normal := by
  unfold timer_finished
  split
  · split <;> exact ⟨rfl, rfl, rfl, rfl, rfl⟩
  · exact ⟨rfl, rfl, rfl, rfl, rfl⟩

theorem set_custom_time_ok (input : List Char) (s s' : TimerState)
    (h : set_custom_time input s = Except.ok s') :
    1 ≤ s'.time_left ∧
    s'.current_mode = s.current_mode ∧
    s'.timer_running = s.timer_running ∧
    s'.timer_paused = s.timer_paused ∧
    s'.pomodoro_count = s.pomodoro_count ∧
    s'.start_button_normal = s.start_button_normal ∧
    s'.pause_button_normal = s.pause_button_normal ∧
    s'.custom_button_normal = s.custom_button_normal := by
  unfold set_custom_time at h
  split at h
  · split at h
    · rename_i hours minutes seconds _ _ _
      split at h
      · rename_i htot
        cases h
        refine ⟨?_, rfl, rfl, rfl, rfl, rfl, rfl, rfl⟩
        show 1 ≤ hours * 3600 + minutes * 60 + seconds
        omega
      · cases h
    · cases h
  · cases h

theorem inv_initial : Inv initial_state :=
  ⟨by decide, by decide, by decide⟩

theorem inv_timer_finished (s : TimerState)
    (h2 : s.timer_paused = true → s.timer_running = true)
    (h3 : s.pause_button_normal = true → s.timer_running = true) :
    Inv (timer_finished s) := by
  obtain ⟨p1, p2, p3, -, -⟩ := timer_finished_preserves s
  exact ⟨timer_finished_pos s, by rw [p1, p2]; exact h2, by rw [p1, p3]; exact h3⟩

theorem inv_start_timer (s : TimerState) (h : Inv s) : Inv (start_timer s) := by
  obtain ⟨h1, h2, h3⟩ := h
  unfold start_timer
  by_cases hr : s.timer_running = false
  · rw [if_pos hr]
    exact ⟨h1, fun _ => rfl, fun _ => rfl⟩
  · rw [if_neg hr]
    exact ⟨h1, h2, h3⟩

theorem inv_click_pause (s : TimerState) (h : Inv s) : Inv (click_pause s) := by
  obtain ⟨h1, h2, h3⟩ := h
  unfold click_pause
  by_cases hb : s.pause_button_normal = true
  · rw [if_pos hb]
    have hr : s.timer_running = true := h3 hb
    unfold pause_timer
    by_cases hp : s.timer_paused = true
    · rw [if_pos hp]
      exact ⟨h1, fun _ => hr, fun _ => hr⟩
    · rw [if_neg hp]
      exact ⟨h1, fun _ => hr, fun _ => hr⟩
  · rw [if_neg hb]
    exact ⟨h1, h2, h3⟩

theorem inv_tick (s : TimerState) (h : Inv s) : Inv (tick s) := by
  obtain ⟨h1, h2, h3⟩ := h
  unfold tick
  by_cases hr : s.timer_running = true
  · rw [if_pos hr]
    by_cases htl : 0 < s.time_left
    · rw [if_pos htl]
      by_cases hp : s.timer_paused = true
      · rw [if_pos hp]
        exact ⟨h1, h2, h3⟩
      · rw [if_neg hp]
        by_cases hz : s.time_left - 1 = 0
        · rw [if_pos hz]
          exact inv_timer_finished _ h2 h3
        · rw [if_neg hz]
          refine ⟨?_, h2, h3⟩
          show 1 ≤ s.time_left - 1
          omega
    · rw [if_neg htl]
      exact inv_timer_finished _ h2 h3
  · rw [if_neg hr]
    exact ⟨h1, h2, h3⟩

theorem inv_set_custom_apply (input : List Char) (s : TimerState) (h : Inv s) :
    Inv (set_custom_apply input s) := by
  obtain ⟨h1, h2, h3⟩ := h
  unfold set_custom_apply
  split
  · rename_i s' hs
    obtain ⟨p1, -, p3, p4, -, -, p7, -⟩ := set_custom_time_ok input s s' hs
    exact ⟨p1, by rw [p4, p3]; exact h2, by rw [p7, p3]; exact h3⟩
  · exact ⟨h1, h2, h3⟩

theorem inv_reset_timer (s : TimerState) : Inv (reset_timer s) := by
  refine ⟨?_, ?_, ?_⟩
  · show (1:Int) ≤ pomodoro_time
    decide
  · intro h
    simp [reset_timer] at h
  · intro h
    simp [reset_timer] at h

theorem inv_click_start (s : TimerState) (h : Inv s) : Inv (click_start s) := by
  unfold click_start
  split
  · exact inv_start_timer s h
  · exact h

theorem inv_click_set_custom (input : List Char) (s : TimerState) (h : Inv s) :
    Inv (click_set_custom input s) := by
  unfold click_set_custom
  split
  · exact inv_set_custom_apply input s h
  · exact h

theorem inv_finish (s : TimerState) (h : Inv s) :
    Inv (if s.timer_running = true ∧ s.time_left ≤ 0 then timer_finished s else s) := by
  split
  · exact inv_timer_finished s h.2.1 h.2.2
  · exact h

theorem inv_step (s : TimerState) (e : Event) (h : Inv s) : Inv (step s e) := by
  cases e with
  | start => exact inv_click_start s h
  | pauseClick => exact inv_click_pause s h
  | tick => exact inv_tick s h
  | finish => exact inv_finish s h
  | setCustom input => exact inv_click_set_custom input s h
  | reset => exact inv_reset_timer s

theorem inv_foldl (evs : List Event) :
    ∀ s : TimerState, Inv s → Inv (List.foldl step s evs) := by
  induction evs with
  | nil => exact fun s h => h
  | cons e rest ih => exact fun s h => ih (step s e) (inv_step s e h)

theorem inv_reachable (s : TimerState) (h : reachable s) : Inv s := by
  obtain ⟨evs, rfl⟩ := h
  exact inv_foldl evs initial_state inv_initial

theorem set_custom_time_success (input : List Char) (s : TimerState)
    (a b c : List Char) (hours minutes seconds : Int)
    (hsplit : splitOnColon input = [a, b, c])
    (ha : pyInt a = some hours) (hb : pyInt b = some minutes) (hc : pyInt c = some seconds)
    (htot : 0 < hours * 3600 + minutes * 60 + seconds) :
    set_custom_time input s =
      Except.ok { s with time_left := hours * 3600 + minutes * 60 + seconds } := by
  unfold set_custom_time
  rw [hsplit]
  simp only [ha, hb, hc]
  rw [if_pos htot]

theorem set_custom_time_nonpositive (input : List Char) (s : TimerState)
    (a b c : List Char) (hours minutes seconds : Int)
    (hsplit : splitOnColon input = [a, b, c])
    (ha : pyInt a = some hours) (hb : pyInt b = some minutes) (hc : pyInt c = some seconds)
    (htot : hours * 3600 + minutes * 60 + seconds ≤ 0) :
    set_custom_time input s = Except.error CustomTimeError.nonPositiveTotal := by
  unfold set_custom_time
  rw [hsplit]
  simp only [ha, hb, hc]
  rw [if_neg (by omega : ¬ 0 < hours * 3600 + minutes * 60 + seconds)]

theorem set_custom_time_wrong_count (input : List Char) (s : TimerState)
    (hlen : (splitOnColon input).length ≠ 3) :
    set_custom_time input s = Except.error CustomTimeError.invalidFormat := by
  unfold set_custom_time
  rcases hsp : splitOnColon input with _ | ⟨a, _ | ⟨b, _ | ⟨c, _ | ⟨d, rest⟩⟩⟩⟩
  · rfl
  · rfl
  · rfl
  · rw [hsp] at hlen
    simp at hlen
  · rfl

theorem set_custom_time_non_integer (input : List Char) (s : TimerState)
    (a b c : List Char)
    (hsplit : splitOnColon input = [a, b, c])
    (hnone : pyInt a = none ∨ pyInt b = none ∨ pyInt c = none) :
    set_custom_time input s = Except.error CustomTimeError.nonIntegerSegment := by
  unfold set_custom_time
  rw [hsplit]
  cases hA : pyInt a <;> cases hB : pyInt b <;> cases hC : pyInt c <;>
    simp only [hA, hB, hC]
  all_goals rcases hnone with h | h | h <;> simp_all

theorem set_custom_apply_of_error (input : List Char) (s : TimerState)
    (e : CustomTimeError) (h : set_custom_time input s = Except.error e) :
    set_custom_apply input s = s := by
  unfold set_custom_apply
  rw [h]

theorem digitChar_spec (d : Nat) (h : d < 10) :
    isPyDigit (digitChar d) = true ∧
    isPySpace (digitChar d) = false ∧
    digitChar d ≠ ':' ∧
    digitChar d ≠ '+' ∧
    digitChar d ≠ '-' ∧
    digitVal (digitChar d) = d := by
  interval_cases d <;> exact ⟨rfl, rfl, by decide, by decide, by decide, rfl⟩

theorem natToDigitsAux_mem (fuel : Nat) :
    ∀ n c, c ∈ natToDigitsAux fuel n → ∃ d, d < 10 ∧ c = digitChar d := by
  induction fuel with
  | zero =>
    intro n c hc
    simp [natToDigitsAux] at hc
  | succ fuel ih =>
    intro n c hc
    simp only [natToDigitsAux] at hc
    by_cases hn : n < 10
    · rw [if_pos hn] at hc
      simp at hc
      exact ⟨n, hn, hc⟩
    · rw [if_neg hn] at hc
      rw [List.mem_append] at hc
      rcases hc with hc | hc
      · exact ih _ _ hc
      · simp at hc
        exact ⟨n % 10, Nat.mod_lt _ (by norm_num), hc⟩

theorem natToDigitsAux_ne_nil (fuel n : Nat) : natToDigitsAux (fuel + 1) n ≠ [] := by
  simp only [natToDigitsAux]
  split
  · simp
  · simp

theorem revVal_append_zero (xs : List Char) : revVal (xs ++ ['0']) = revVal xs := by
  induction xs with
  | nil => rfl
  | cons c cs ih =>
    simp only [List.cons_append, revVal, List.append_eq]
    rw [ih]

theorem revVal_natToDigitsAux (fuel : Nat) :
    ∀ n, n ≤ fuel → revVal (natToDigitsAux (fuel + 1) n).reverse = some n := by
  induction fuel with
  | zero =>
    intro n hn
    interval_cases n
    rfl
  | succ fuel ih =>
    intro n hn
    have hstep : natToDigitsAux (fuel + 1 + 1) n =
        if n < 10 then [digitChar n]
        else natToDigitsAux (fuel + 1) (n / 10) ++ [digitChar (n % 10)] := rfl
    by_cases h10 : n < 10
    · rw [hstep, if_pos h10]
      obtain ⟨hd, -, -, -, -, hv⟩ := digitChar_spec n h10
      simp [revVal, hd, hv]
    · rw [hstep, if_neg h10, List.reverse_append]
      simp only [List.reverse_cons, List.reverse_nil, List.nil_append, List.singleton_append]
      have hmod : n % 10 < 10 := Nat.mod_lt _ (by norm_num)
      obtain ⟨hd, -, -, -, -, hv⟩ := digitChar_spec (n % 10) hmod
      simp only [revVal, hd, if_true, hv]
      rw [ih (n / 10) (by omega)]
      simp only [Option.map_some']
      congr 1
      omega

theorem revVal_natToDigits (n : Nat) : revVal (natToDigits n).reverse = some n :=
  revVal_natToDigitsAux n n le_rfl

theorem digitsToNat_natToDigits (n : Nat) : digitsToNat (natToDigits n) = some n := by
  rcases hx : natToDigits n with _ | ⟨c, cs⟩
  · exact absurd hx (natToDigitsAux_ne_nil n n)
  · show revVal ((c :: cs).reverse) = some n
    rw [← hx]
    exact revVal_natToDigits n

theorem digitsToNat_fmt2 (n : Nat) : digitsToNat (fmt2 n) = some n := by
  unfold fmt2
  by_cases h10 : n < 10
  · rw [if_pos h10]
    show revVal (('0' :: natToDigits n).reverse) = some n
    rw [List.reverse_cons, revVal_append_zero]
    exact revVal_natToDigits n
  · rw [if_neg h10]
    exact digitsToNat_natToDigits n

theorem fmt2_mem (n : Nat) : ∀ c ∈ fmt2 n, ∃ d, d < 10 ∧ c = digitChar d := by
  intro c hc
  unfold fmt2 at hc
  by_cases h10 : n < 10
  · rw [if_pos h10] at hc
    rcases List.mem_cons.mp hc with h | h
    · exact ⟨0, by norm_num, by rw [h]; rfl⟩
    · exact natToDigitsAux_mem _ _ _ h
  · rw [if_neg h10] at hc
    exact natToDigitsAux_mem _ _ _ hc

theorem fmt2_ne_nil (n : Nat) : fmt2 n ≠ [] := by
  unfold fmt2
  split
  · simp
  · exact natToDigitsAux_ne_nil n n

theorem dropWhile_eq_self_of (p : Char → Bool) (l : List Char)
    (h : ∀ c ∈ l, p c = false) : List.dropWhile p l = l := by
  cases l with
  | nil => rfl
  | cons c cs =>
    rw [List.dropWhile_cons, h c (List.mem_cons_self c cs)]
    simp

theorem pyStrip_eq_self (l : List Char) (h : ∀ c ∈ l, isPySpace c = false) :
    pyStrip l = l := by
  unfold pyStrip
  rw [dropWhile_eq_self_of _ _ h]
  rw [dropWhile_eq_self_of _ _ (fun c hc => h c (List.mem_reverse.mp hc))]
  exact List.reverse_reverse l

theorem pyInt_digits (l : List Char) (hne : l ≠ [])
    (hdig : ∀ c ∈ l, ∃ d, d < 10 ∧ c = digitChar d) :
    pyInt l = (digitsToNat l).map (fun k => (k : Int)) := by
  have hsp : ∀ c ∈ l, isPySpace c = false := by
    intro c hc
    obtain ⟨d, hd, rfl⟩ := hdig c hc
    exact (digitChar_spec d hd).2.1
  have hstrip := pyStrip_eq_self l hsp
  unfold pyInt
  rw [hstrip]
  rcases l with _ | ⟨c, cs⟩
  · exact absurd rfl hne
  · obtain ⟨d, hd, hc⟩ := hdig c (List.mem_cons_self c cs)
    show (if c = '+' then (digitsToNat cs).map (fun n => (n : Int))
        else if c = '-' then (digitsToNat cs).map (fun n => -(n : Int))
        else (digitsToNat (c :: cs)).map (fun n => (n : Int))) =
      (digitsToNat (c :: cs)).map (fun k => (k : Int))
    rw [if_neg (by rw [hc]; exact (digitChar_spec d hd).2.2.2.1),
      if_neg (by rw [hc]; exact (digitChar_spec d hd).2.2.2.2.1)]

theorem pyInt_fmt2 (n : Nat) : pyInt (fmt2 n) = some ((n : Nat) : Int) := by
  rw [pyInt_digits (fmt2 n) (fmt2_ne_nil n) (fmt2_mem n), digitsToNat_fmt2 n]
  rfl

theorem splitOnColon_no_colon (l : List Char) (h : ∀ c ∈ l, c ≠ ':') :
    splitOnColon l = [l] := by
  induction l with
  | nil => rfl
  | cons c cs ih =>
    simp only [splitOnColon]
    rw [if_neg (h c (List.mem_cons_self c cs))]
    rw [ih (fun x hx => h x (List.mem_cons_of_mem c hx))]

theorem splitOnColon_append (xs l : List Char) (h : ∀ c ∈ xs, c ≠ ':') :
    splitOnColon (xs ++ ':' :: l) = xs :: splitOnColon l := by
  induction xs with
  | nil =>
    simp only [List.nil_append, splitOnColon]
    simp
  | cons c cs ih =>
    simp only [List.cons_append, splitOnColon, List.append_eq]
    rw [if_neg (h c (List.mem_cons_self c cs))]
    rw [ih (fun x hx => h x (List.mem_cons_of_mem c hx))]

theorem fmt2_no_colon (m : Nat) : ∀ c ∈ fmt2 m, c ≠ ':' := by
  intro c hc
  obtain ⟨d, hd, rfl⟩ := fmt2_mem m c hc
  exact (digitChar_spec d hd).2.2.1

theorem splitOnColon_format_time (r : Nat) :
    splitOnColon (format_time r) =
      [fmt2 (display_parts r).1, fmt2 (display_parts r).2.1, fmt2 (display_parts r).2.2] := by
  unfold format_time
  rw [splitOnColon_append _ _ (fmt2_no_colon _)]
  rw [splitOnColon_append _ _ (fmt2_no_colon _)]
  rw [splitOnColon_no_colon _ (fmt2_no_colon _)]

/-! ### Claims -/

/-- C1: when the n-th Work interval completes, `pomodoro_count` becomes
`n` and the next mode is Long Break iff `n % 4 == 0`, else Short Break;
when a break completes the next mode is Work; in each case `time_left`
is loaded with the new mode's configured duration (1800 / 300 / 1500)
and `timer_running` is untouched, so a running timer stays running. -/
theorem spec_C1 (s : TimerState) (n : Nat) (hn : s.pomodoro_count + 1 = n) :
    (s.current_mode = Mode.Pomodoro →
      (timer_finished s).pomodoro_count = n ∧
      (n % 4 = 0 →
        (timer_finished s).current_mode = Mode.LongBreak ∧
        (timer_finished s).time_left = long_break_time) ∧
      (n % 4 ≠ 0 →
        (timer_finished s).current_mode = Mode.ShortBreak ∧
        (timer_finished s).time_left = short_break_time)) ∧
    (s.current_mode ≠ Mode.Pomodoro →
      (timer_finished s).current_mode = Mode.Pomodoro ∧
      (timer_finished s).time_left = pomodoro_time) ∧
    (s.timer_running = true → (timer_finished s).timer_running = true) := by
  subst hn
  refine ⟨?_, ?_, ?_⟩
  · intro hm
    unfold timer_finished
    rw [if_pos hm]
    by_cases h4 : (s.pomodoro_count + 1) % 4 = 0
    · rw [if_pos h4]
      exact ⟨rfl, fun _ => ⟨rfl, rfl⟩, fun hne => absurd h4 hne⟩
    · rw [if_neg h4]
      exact ⟨rfl, fun hc => absurd hc h4, fun _ => ⟨rfl, rfl⟩⟩
  · intro hm
    unfold timer_finished
    rw [if_neg hm]
    exact ⟨rfl, rfl⟩
  · intro hr
    rw [(timer_finished_preserves s).1]
    exact hr

/-- Witness for C1: the 4th Work completion yields count 4 and a Long
Break of 1800 seconds, still running. -/
theorem spec_C1_witness :
    (timer_finished { initial_state with timer_running := true, pomodoro_count := 3 }).pomodoro_count = 4 ∧
    (timer_finished { initial_state with timer_running := true, pomodoro_count := 3 }).current_mode = Mode.LongBreak ∧
    (timer_finished { initial_state with timer_running := true, pomodoro_count := 3 }).time_left = long_break_time ∧
    (timer_finished { initial_state with timer_running := true, pomodoro_count := 3 }).timer_running = true := by
  have h := spec_C1 { initial_state with timer_running := true, pomodoro_count := 3 } 4 rfl
  exact ⟨(h.1 rfl).1, ((h.1 rfl).2.1 rfl).1, ((h.1 rfl).2.1 rfl).2, h.2.2 rfl⟩

/-- C2: every reachable state has non-negative `time_left`; a tick never
takes it below zero; a decrement that reaches zero triggers the mode
transition in the same step; and a tick fired at zero completes
immediately with no decrement. -/
theorem spec_C2 :
    (∀ s : TimerState, reachable s → 0 ≤ s.time_left) ∧
    (∀ s : TimerState, 0 ≤ s.time_left → 0 ≤ (tick s).time_left) ∧
    (∀ s : TimerState, s.timer_running = true → s.timer_paused = false → s.time_left = 1 →
      tick s = timer_finished { s with time_left := 0 }) ∧
    (∀ s : TimerState, s.timer_running = true → s.time_left = 0 → tick s = timer_finished s) := by
  refine ⟨?_, ?_, ?_, ?_⟩
  · intro s hs
    have h1 := (inv_reachable s hs).1
    omega
  · intro s h0
    unfold tick
    by_cases hr : s.timer_running = true
    · rw [if_pos hr]
      by_cases htl : 0 < s.time_left
      · rw [if_pos htl]
        by_cases hp : s.timer_paused = true
        · rw [if_pos hp]
          exact h0
        · rw [if_neg hp]
          by_cases hz : s.time_left - 1 = 0
          · rw [if_pos hz]
            have := timer_finished_pos { s with time_left := s.time_left - 1 }
            omega
          · rw [if_neg hz]
            show 0 ≤ s.time_left - 1
            omega
      · rw [if_neg htl]
        have := timer_finished_pos s
        omega
    · rw [if_neg hr]
      exact h0
  · intro s hr hp h1
    unfold tick
    rw [if_pos hr, if_pos (by omega : (0:Int) < s.time_left),
      if_neg (by simp [hp] : ¬ s.timer_paused = true),
      if_pos (by omega : s.time_left - 1 = 0)]
    have hz : s.time_left - 1 = 0 := by omega
    rw [hz]
  · intro s hr h0
    unfold tick
    rw [if_pos hr, if_neg (by omega : ¬ (0:Int) < s.time_left)]

/-- Witness for C2 at concrete states. -/
theorem spec_C2_witness :
    0 ≤ (List.foldl step initial_state [Event.start, Event.tick]).time_left ∧
    0 ≤ (tick { initial_state with timer_running := true }).time_left ∧
    tick { initial_state with timer_running := true, time_left := 1 } =
      timer_finished { initial_state with timer_running := true, time_left := 0 } ∧
    tick { initial_state with timer_running := true, time_left := 0 } =
      timer_finished { initial_state with timer_running := true, time_left := 0 } :=
  ⟨spec_C2.1 _ ⟨[Event.start, Event.tick], rfl⟩,
   spec_C2.2.1 _ (by decide),
   spec_C2.2.2.1 _ rfl rfl rfl,
   spec_C2.2.2.2 _ rfl rfl⟩

/-- C3: `reset_timer` from any state yields exactly the initial state:
Work mode, 1500 seconds, count 0, not running, not paused. -/
theorem spec_C3 (s : TimerState) : reset_timer s = initial_state := rfl

/-- C5: in every reachable state `timer_paused` implies `timer_running`,
and a Pause click while idle is a no-op (the Pause button is disabled
whenever the timer is not running). -/
theorem spec_C5 :
    (∀ s : TimerState, reachable s → s.timer_paused = true → s.timer_running = true) ∧
    (∀ s : TimerState, reachable s → s.timer_running = false → click_pause s = s) := by
  constructor
  · intro s hs hp
    exact (inv_reachable s hs).2.1 hp
  · intro s hs hr
    have h3 := (inv_reachable s hs).2.2
    unfold click_pause
    by_cases hb : s.pause_button_normal = true
    · simp [h3 hb] at hr
    · rw [if_neg hb]

/-- Witness for C5: a reachable paused state is running, and a Pause
click in the initial (idle) state changes nothing. -/
theorem spec_C5_witness :
    (List.foldl step initial_state [Event.start, Event.pauseClick]).timer_running = true ∧
    click_pause initial_state = initial_state :=
  ⟨spec_C5.1 _ ⟨[Event.start, Event.pauseClick], rfl⟩ rfl,
   spec_C5.2 initial_state ⟨[], rfl⟩ rfl⟩

/-- C6: toggling pause twice restores the exact prior state (so
`time_left`, `current_mode` and `pomodoro_count` are untouched), and no
tick decrements `time_left` while paused. -/
theorem spec_C6 :
    (∀ s : TimerState, s.timer_running = true → pause_timer (pause_timer s) = s) ∧
    (∀ s : TimerState, s.timer_paused = true → 0 < s.time_left → (tick s).time_left = s.time_left) := by
  constructor
  · intro s _
    by_cases hp : s.timer_paused = true
    · have h1 : pause_timer s = { s with timer_paused := false } := by
        unfold pause_timer
        rw [if_pos hp]
      have h2 : pause_timer { s with timer_paused := false } = { s with timer_paused := true } := by
        unfold pause_timer
        rw [if_neg (by simp : ¬ ({ s with timer_paused := false } : TimerState).timer_paused = true)]
      rw [h1, h2, ← hp]
    · have hp' : s.timer_paused = false := by
        simpa using hp
      have h1 : pause_timer s = { s with timer_paused := true } := by
        unfold pause_timer
        rw [if_neg hp]
      have h2 : pause_timer { s with timer_paused := true } = { s with timer_paused := false } := by
        unfold pause_timer
        rw [if_pos (rfl : ({ s with timer_paused := true } : TimerState).timer_paused = true)]
      rw [h1, h2, ← hp']
  · intro s hp htl
    unfold tick
    by_cases hr : s.timer_running = true
    · rw [if_pos hr, if_pos htl, if_pos hp]
    · rw [if_neg hr]

/-- Witness for C6 at concrete running and paused states. -/
theorem spec_C6_witness :
    pause_timer (pause_timer { initial_state with timer_running := true }) =
      { initial_state with timer_running := true } ∧
    (tick { initial_state with timer_running := true, timer_paused := true }).time_left =
      ({ initial_state with timer_running := true, timer_paused := true } : TimerState).time_left :=
  ⟨spec_C6.1 _ rfl, spec_C6.2 _ rfl (by decide)⟩

/-- C7: `start_timer` is idempotent, a no-op when already running (so
also when paused, since paused states are running states), and from idle
it only flips `timer_running` to true, leaving mode, time left, paused
flag and count unchanged. -/
theorem spec_C7 :
    (∀ s : TimerState, start_timer (start_timer s) = start_timer s) ∧
    (∀ s : TimerState, s.timer_running = true → start_timer s = s) ∧
    (∀ s : TimerState, s.timer_running = false →
      (start_timer s).timer_running = true ∧
      (start_timer s).current_mode = s.current_mode ∧
      (start_timer s).time_left = s.time_left ∧
      (start_timer s).timer_paused = s.timer_paused ∧
      (start_timer s).pomodoro_count = s.pomodoro_count) := by
  have hidle : ∀ s : TimerState, s.timer_running = false →
      start_timer s = { s with
        timer_running := true
        start_button_normal := false
        pause_button_normal := true
        custom_button_normal := false } := by
    intro s hr
    unfold start_timer
    rw [if_pos hr]
  have hrun : ∀ s : TimerState, s.timer_running = true → start_timer s = s := by
    intro s hr
    have hne : ¬ s.timer_running = false := by
      simp [hr]
    unfold start_timer
    rw [if_neg hne]
  refine ⟨?_, hrun, ?_⟩
  · intro s
    by_cases hr : s.timer_running = false
    · rw [hidle s hr, hrun _ rfl]
    · have hr' : s.timer_running = true := by
        simpa using hr
      rw [hrun s hr']
      exact hrun s hr'
  · intro s hr
    rw [hidle s hr]
    exact ⟨rfl, rfl, rfl, rfl, rfl⟩

/-- Witness for C7: starting twice from a running state and starting
from idle. -/
theorem spec_C7_witness :
    start_timer { initial_state with timer_running := true } =
      { initial_state with timer_running := true } ∧
    (start_timer initial_state).timer_running = true :=
  ⟨spec_C7.2.1 { initial_state with timer_running := true } rfl,
   (spec_C7.2.2 initial_state rfl).1⟩

/-- C4: for every entry string and every state, `set_custom_time`
succeeds iff the string splits on `":"` into exactly three
integer-parsing segments with positive total `hours*3600 +
minutes*60 + seconds`, in which case only `time_left` changes (to the
total); on a wrong segment count, a non-integer segment, or a
non-positive total it reports the matching `ValueError` and leaves the
state unchanged. -/
theorem spec_C4 (input : List Char) (s : TimerState) :
    (∀ a b c : List Char, ∀ hours minutes seconds : Int,
      splitOnColon input = [a, b, c] →
      pyInt a = some hours → pyInt b = some minutes → pyInt c = some seconds →
      (0 < hours * 3600 + minutes * 60 + seconds →
        set_custom_time input s =
          Except.ok { s with time_left := hours * 3600 + minutes * 60 + seconds }) ∧
      (hours * 3600 + minutes * 60 + seconds ≤ 0 →
        set_custom_time input s = Except.error CustomTimeError.nonPositiveTotal ∧
        set_custom_apply input s = s)) ∧
    ((splitOnColon input).length ≠ 3 →
      set_custom_time input s = Except.error CustomTimeError.invalidFormat ∧
      set_custom_apply input s = s) ∧
    (∀ a b c : List Char,
      splitOnColon input = [a, b, c] →
      (pyInt a = none ∨ pyInt b = none ∨ pyInt c = none) →
      set_custom_time input s = Except.error CustomTimeError.nonIntegerSegment ∧
      set_custom_apply input s = s) := by
  refine ⟨?_, ?_, ?_⟩
  · intro a b c hours minutes seconds hsplit ha hb hc
    constructor
    · intro htot
      exact set_custom_time_success input s a b c hours minutes seconds hsplit ha hb hc htot
    · intro htot
      have he := set_custom_time_nonpositive input s a b c hours minutes seconds hsplit ha hb hc htot
      exact ⟨he, set_custom_apply_of_error input s _ he⟩
  · intro hlen
    have he := set_custom_time_wrong_count input s hlen
    exact ⟨he, set_custom_apply_of_error input s _ he⟩
  · intro a b c hsplit hnone
    have he := set_custom_time_non_integer input s a b c hsplit hnone
    exact ⟨he, set_custom_apply_of_error input s _ he⟩

/-- Witness for C4: the spec's own examples `"00:00:05"` (succeeds,
remaining 5), `"00:00:00"` (non-positive total, state unchanged),
`"1:2"` (wrong segment count), plus a non-integer segment `"1:a:0"`. -/
theorem spec_C4_witness :
    set_custom_time ['0', '0', ':', '0', '0', ':', '0', '5'] initial_state =
      Except.ok { initial_state with time_left := 5 } ∧
    set_custom_time ['0', '0', ':', '0', '0', ':', '0', '0'] initial_state =
      Except.error CustomTimeError.nonPositiveTotal ∧
    set_custom_apply ['0', '0', ':', '0', '0', ':', '0', '0'] initial_state = initial_state ∧
    set_custom_time ['1', ':', '2'] initial_state = Except.error CustomTimeError.invalidFormat ∧
    set_custom_time ['1', ':', 'a', ':', '0'] initial_state =
      Except.error CustomTimeError.nonIntegerSegment := by
  refine ⟨?_, ?_, ?_, ?_, ?_⟩
  · exact ((spec_C4 ['0', '0', ':', '0', '0', ':', '0', '5'] initial_state).1
      ['0', '0'] ['0', '0'] ['0', '5'] 0 0 5 rfl rfl rfl rfl).1 (by decide)
  · exact (((spec_C4 ['0', '0', ':', '0', '0', ':', '0', '0'] initial_state).1
      ['0', '0'] ['0', '0'] ['0', '0'] 0 0 0 rfl rfl rfl rfl).2 (by decide)).1
  · exact (((spec_C4 ['0', '0', ':', '0', '0', ':', '0', '0'] initial_state).1
      ['0', '0'] ['0', '0'] ['0', '0'] 0 0 0 rfl rfl rfl rfl).2 (by decide)).2
  · exact ((spec_C4 ['1', ':', '2'] initial_state).2.1 (by decide)).1
  · exact ((spec_C4 ['1', ':', 'a', ':', '0'] initial_state).2.2
      ['1'] ['a'] ['0'] rfl (Or.inr (Or.inl rfl))).1

/-- C8 as stated is false: a negative segment does NOT by itself make
`set_custom_time` fail.  The input `"1:-1:0"` has the negative segment
`"-1"`, yet the total `1*3600 + (-1)*60 + 0 = 3540` is positive, so the
call succeeds and sets `time_left` to 3540 instead of failing. -/
theorem spec_C8_counterexample :
    pyInt ['-', '1'] = some (-1) ∧
    set_custom_time ['1', ':', '-', '1', ':', '0'] initial_state =
      Except.ok { initial_state with time_left := 3540 } ∧
    ∀ e : CustomTimeError,
      set_custom_time ['1', ':', '-', '1', ':', '0'] initial_state ≠ Except.error e := by
  refine ⟨rfl, rfl, ?_⟩
  intro e h
  rw [show set_custom_time ['1', ':', '-', '1', ':', '0'] initial_state =
    Except.ok { initial_state with time_left := 3540 } from rfl] at h
  exact Except.noConfusion h

/-- C8 (amended): for a three-segment input whose segments all parse as
integers, at least one negative, the call fails with the non-positive
total error iff the computed total is ≤ 0 (leaving the state
unchanged); when the total is positive it succeeds even though a
segment is negative, setting `time_left` to the total. -/
theorem spec_C8 (input : List Char) (s : TimerState)
    (a b c : List Char) (hours minutes seconds : Int)
    (hsplit : splitOnColon input = [a, b, c])
    (ha : pyInt a = some hours) (hb : pyInt b = some minutes) (hc : pyInt c = some seconds)
    (_hneg : hours < 0 ∨ minutes < 0 ∨ seconds < 0) :
    (hours * 3600 + minutes * 60 + seconds ≤ 0 →
      set_custom_time input s = Except.error CustomTimeError.nonPositiveTotal ∧
      set_custom_apply input s = s) ∧
    (0 < hours * 3600 + minutes * 60 + seconds →
      set_custom_time input s =
        Except.ok { s with time_left := hours * 3600 + minutes * 60 + seconds }) := by
  constructor
  · intro htot
    have he := set_custom_time_nonpositive input s a b c hours minutes seconds hsplit ha hb hc htot
    exact ⟨he, set_custom_apply_of_error input s _ he⟩
  · intro htot
    exact set_custom_time_success input s a b c hours minutes seconds hsplit ha hb hc htot

/-- Witness for C8 (amended): `"0:0:-1"` has a negative segment and
total -1 ≤ 0, so it fails and leaves the state unchanged. -/
theorem spec_C8_witness :
    set_custom_time ['0', ':', '0', ':', '-', '1'] initial_state =
      Except.error CustomTimeError.nonPositiveTotal ∧
    set_custom_apply ['0', ':', '0', ':', '-', '1'] initial_state = initial_state := by
  have h := spec_C8 ['0', ':', '0', ':', '-', '1'] initial_state
    ['0'] ['0'] ['-', '1'] 0 0 (-1) rfl rfl rfl rfl (Or.inr (Or.inr (by decide)))
  exact h.1 (by decide)

/-- C9: the stale-tick race the claim denies actually happens.  From a
running state with the worker at its loop guard, the worker passes the
guard and enters its one-second sleep; the main thread then runs
`reset_timer`, restoring the exact initial state; the worker wakes and
executes the unguarded `self.time_left -= 1`, leaving `time_left` at
1499 ≠ 1500 with the timer stopped — the pre-reset tick fires after the
reset. -/
theorem spec_C9 :
    (main_reset (worker_step race_start)).ts = initial_state ∧
    (worker_step (main_reset (worker_step race_start))).ts.time_left = pomodoro_time - 1 ∧
    (worker_step (main_reset (worker_step race_start))).ts.time_left ≠ initial_state.time_left ∧
    (worker_step (main_reset (worker_step race_start))).ts.timer_running = false :=
  ⟨rfl, rfl, by decide, rfl⟩

/-- C10: the display decomposition `hours = r / 3600`,
`minutes = r % 3600 / 60`, `seconds = r % 3600 % 60` (all non-negative
as naturals) has minutes and seconds below 60, recombines to `r`, and
its seconds equal `r % 60`; and for every positive `r`, rendering it as
the `HH:MM:SS` display string and feeding that back to
`set_custom_time` succeeds and sets `time_left` to exactly `r`. -/
theorem spec_C10 (r : Nat) :
    (display_parts r).2.1 < 60 ∧
    (display_parts r).2.2 < 60 ∧
    (display_parts r).1 * 3600 + (display_parts r).2.1 * 60 + (display_parts r).2.2 = r ∧
    (display_parts r).2.2 = r % 60 ∧
    (0 < r → ∀ s : TimerState,
      set_custom_time (format_time r) s = Except.ok { s with time_left := (r : Int) }) := by
  have h3 : r / 3600 * 3600 + r % 3600 / 60 * 60 + r % 3600 % 60 = r := by omega
  simp only [display_parts]
  refine ⟨by omega, by omega, h3, by omega, ?_⟩
  intro hr s
  have htot : ((r / 3600 : Nat) : Int) * 3600 + ((r % 3600 / 60 : Nat) : Int) * 60 +
      ((r % 3600 % 60 : Nat) : Int) = (r : Int) := by
    exact_mod_cast h3
  have hpos : 0 < ((r / 3600 : Nat) : Int) * 3600 + ((r % 3600 / 60 : Nat) : Int) * 60 +
      ((r % 3600 % 60 : Nat) : Int) := by
    rw [htot]
    exact_mod_cast hr
  have hok := set_custom_time_success (format_time r) s
    (fmt2 (display_parts r).1) (fmt2 (display_parts r).2.1) (fmt2 (display_parts r).2.2)
    ((r / 3600 : Nat) : Int) ((r % 3600 / 60 : Nat) : Int) ((r % 3600 % 60 : Nat) : Int)
    (splitOnColon_format_time r) (pyInt_fmt2 _) (pyInt_fmt2 _) (pyInt_fmt2 _) hpos
  rw [hok, htot]

/-- Witness for C10 at r = 3661 (rendered `"01:01:01"`). -/
theorem spec_C10_witness :
    (display_parts 3661).1 * 3600 + (display_parts 3661).2.1 * 60 + (display_parts 3661).2.2 = 3661 ∧
    set_custom_time (format_time 3661) initial_state =
      Except.ok { initial_state with time_left := (3661 : Int) } :=
  ⟨(spec_C10 3661).2.2.1, (spec_C10 3661).2.2.2.2 (by decide) initial_state⟩

end Pomodoro
